import Mathlib

/-!
# Report to CronJob compiler and its submission driver

A shallow embedding of `src/main.go`: the `Report` declaration, the
descriptor builder `newCronJobFromReport`, and the part of `main` that
submits the descriptor to the cluster.

The Kubernetes API structs (`batchv1`, `corev1`, `metav1`) come from
libraries outside the repository. Each struct below lists the fields the
source sets plus the neighbouring fields the properties talk about
(namespace, argument vector, the other value sources); a Go composite
literal leaves every field it does not mention at its zero value, which is
`""` for a string, `[]` for a slice and `none` for a pointer.
-/

namespace CronJobExample

/-! ## The repository's own types (`src/main.go`, lines 17-27) -/

structure ReportSpec where
  DatabaseHostName : String
  DatabasePort : String
  deriving DecidableEq, Repr

structure Report where
  Name : String
  Spec : ReportSpec
  deriving DecidableEq, Repr

/-! ## Library structs, as far as the source touches them -/

namespace metav1

structure TypeMeta where
  Kind : String := ""
  APIVersion : String := ""
  deriving DecidableEq, Repr

structure ObjectMeta where
  Name : String := ""
  GenerateName : String := ""
  Namespace : String := ""
  deriving DecidableEq, Repr

/-- The options struct passed to a create call; the source passes the zero value. -/
structure CreateOptions where
  DryRun : List String := []
  FieldManager : String := ""
  FieldValidation : String := ""
  deriving DecidableEq, Repr

end metav1

namespace corev1

structure LocalObjectReference where
  Name : String := ""
  deriving DecidableEq, Repr

structure SecretKeySelector where
  LocalObjectReference : LocalObjectReference := {}
  Key : String := ""
  Optional : Option Bool := none
  deriving DecidableEq, Repr

structure ConfigMapKeySelector where
  LocalObjectReference : LocalObjectReference := {}
  Key : String := ""
  Optional : Option Bool := none
  deriving DecidableEq, Repr

structure ObjectFieldSelector where
  APIVersion : String := ""
  FieldPath : String := ""
  deriving DecidableEq, Repr

structure ResourceFieldSelector where
  ContainerName : String := ""
  Resource : String := ""
  deriving DecidableEq, Repr

structure EnvVarSource where
  FieldRef : Option ObjectFieldSelector := none
  ResourceFieldRef : Option ResourceFieldSelector := none
  ConfigMapKeyRef : Option ConfigMapKeySelector := none
  SecretKeyRef : Option SecretKeySelector := none
  deriving DecidableEq, Repr

structure EnvVar where
  Name : String := ""
  Value : String := ""
  ValueFrom : Option EnvVarSource := none
  deriving DecidableEq, Repr

structure Container where
  Name : String := ""
  Image : String := ""
  Command : List String := []
  Args : List String := []
  WorkingDir : String := ""
  Env : List EnvVar := []
  deriving DecidableEq, Repr

structure PodSpec where
  InitContainers : List Container := []
  Containers : List Container := []
  RestartPolicy : String := ""
  deriving DecidableEq, Repr

structure PodTemplateSpec where
  ObjectMeta : metav1.ObjectMeta := {}
  Spec : PodSpec := {}
  deriving DecidableEq, Repr

end corev1

namespace batchv1

structure JobSpec where
  Template : corev1.PodTemplateSpec := {}
  deriving DecidableEq, Repr

structure JobTemplateSpec where
  ObjectMeta : metav1.ObjectMeta := {}
  Spec : JobSpec := {}
  deriving DecidableEq, Repr

structure CronJobSpec where
  Schedule : String := ""
  ConcurrencyPolicy : String := ""
  Suspend : Option Bool := none
  JobTemplate : JobTemplateSpec := {}
  deriving DecidableEq, Repr

structure CronJob where
  TypeMeta : metav1.TypeMeta := {}
  ObjectMeta : metav1.ObjectMeta := {}
  Spec : CronJobSpec := {}
  deriving DecidableEq, Repr

end batchv1

/-! ## The descriptor builder (`src/main.go`, lines 29-124) -/

/-- The function `newCronJobFromReport` of `src/main.go`: one composite literal,
returned as is. The argument is the `Report` the Go pointer `d` refers to. -/
def newCronJobFromReport (d : Report) : batchv1.CronJob :=
  { TypeMeta := { Kind := "Cronjob" }
    ObjectMeta := { Name := d.Name }
    Spec :=
      { ConcurrencyPolicy := "Forbid"
        Schedule := "*/5 * * * *"
        JobTemplate :=
          { Spec :=
              { Template :=
                  { Spec :=
                      { Containers :=
                          [ { Name := "dayreport"
                              Image := "docker.io/postgres:14"
                              Env :=
                                [ { Name := "PGDATABASE"
                                    ValueFrom := some
                                      { SecretKeyRef := some
                                          { LocalObjectReference := { Name := "pg-config" }
                                            Key := "POSTGRES_DB" } } },
                                  { Name := "PGUSER"
                                    ValueFrom := some
                                      { SecretKeyRef := some
                                          { LocalObjectReference := { Name := "pg-config" }
                                            Key := "POSTGRES_USER" } } },
                                  { Name := "PGPASSWORD"
                                    ValueFrom := some
                                      { SecretKeyRef := some
                                          { LocalObjectReference := { Name := "pg-config" }
                                            Key := "POSTGRES_PASSWORD" } } },
                                  { Name := "PGHOST"
                                    Value := d.Spec.DatabaseHostName },
                                  { Name := "PGPORT"
                                    Value := d.Spec.DatabasePort } ]
                              Command := ["psql", "-c", "SELECT current_timestamp;"] } ]
                        RestartPolicy := "Never" } } } } } }

/-- The `Report` literal built at the top of `main` (lines 127-133). -/
def mainReport : Report :=
  { Name := "example"
    Spec := { DatabaseHostName := "postgres", DatabasePort := "5432" } }

/-- The containers of the descriptor's pod template. -/
def containersOf (c : batchv1.CronJob) : List corev1.Container :=
  c.Spec.JobTemplate.Spec.Template.Spec.Containers

/-- An environment binding that refers to key `key` of the secret object `obj`. -/
def secretEnv (name obj key : String) : corev1.EnvVar :=
  { Name := name
    ValueFrom := some
      { SecretKeyRef := some { LocalObjectReference := { Name := obj }, Key := key } } }

/-- An environment binding with a literal value. -/
def literalEnv (name value : String) : corev1.EnvVar :=
  { Name := name, Value := value }

/-! ## Calling the builder through its pointer argument -/

/-- What a Go call `newCronJobFromReport(d)` leaves behind: either the returned
descriptor together with the `Report` that `d` points to after the call, or the
run-time failure Go raises when `d.Name` is evaluated on a nil pointer. -/
inductive CallResult
  | returned (cronjob : batchv1.CronJob) (pointee : Report)
  | nilDereference
  deriving DecidableEq, Repr

/-- The call `newCronJobFromReport(d)` for a pointer `d` (`none` is nil). The body
reads three fields through `d` and never assigns through it, so the pointee
after the call is the pointee before it. There is no error result and no
`panic` statement in the body. -/
def callNewCronJobFromReport (d : Option Report) : CallResult :=
  match d with
  | none => CallResult.nilDereference
  | some r => CallResult.returned (newCronJobFromReport r) r

/-! ## The naming grammar the specification refers to -/

/-- A character the naming grammar allows: a lowercase letter, a digit or a hyphen. -/
def isNameChar (c : Char) : Bool :=
  c.isLower || c.isDigit || c == '-'

/-- The naming grammar in the words of the specification: non-empty, only
lowercase alphanumerics and hyphens, and at most `bound` characters long. The
specification gives no number for the bound, so it is a parameter. -/
def validName (bound : Nat) (s : String) : Bool :=
  s != "" && s.toList.all isNameChar && decide (s.toList.length ≤ bound)

/-! ## Predicates on environment bindings -/

/-- The binding carries a literal value (Go: `Value` is not the empty string). -/
def hasLiteral (e : corev1.EnvVar) : Bool :=
  e.Value != ""

/-- The binding carries a secret-key reference (Go: `ValueFrom` and its
`SecretKeyRef` are both non-nil). -/
def hasSecretRef (e : corev1.EnvVar) : Bool :=
  match e.ValueFrom with
  | none => false
  | some src => src.SecretKeyRef.isSome

/-- The binding carries a reference of one of the other kinds (field,
resource field or config-map key). -/
def hasOtherRef (e : corev1.EnvVar) : Bool :=
  match e.ValueFrom with
  | none => false
  | some src => src.FieldRef.isSome || src.ResourceFieldRef.isSome || src.ConfigMapKeyRef.isSome

/-- The first binding called `name` in an environment. -/
def lookupEnv (name : String) (env : List corev1.EnvVar) : Option corev1.EnvVar :=
  env.find? (fun e => e.Name == name)

/-- A `Report` the specification calls valid for compilation: name, host and
port are all non-empty. -/
def Report.nonEmpty (r : Report) : Prop :=
  r.Name ≠ "" ∧ r.Spec.DatabaseHostName ≠ "" ∧ r.Spec.DatabasePort ≠ ""

/-! ## Blanking the three places a `Report` flows into -/

/-- Blank the literal value of a binding called `PGHOST` or `PGPORT`. -/
def eraseEnvValue (e : corev1.EnvVar) : corev1.EnvVar :=
  if e.Name = "PGHOST" ∨ e.Name = "PGPORT" then { e with Value := "" } else e

/-- Blank `ObjectMeta.Name` and the literal values of `PGHOST` and `PGPORT` in
every container, and keep every other field of the descriptor. -/
def eraseReportFields (c : batchv1.CronJob) : batchv1.CronJob :=
  { c with
    ObjectMeta := { c.ObjectMeta with Name := "" }
    Spec := { c.Spec with
      JobTemplate := { c.Spec.JobTemplate with
        Spec := { c.Spec.JobTemplate.Spec with
          Template := { c.Spec.JobTemplate.Spec.Template with
            Spec := { c.Spec.JobTemplate.Spec.Template.Spec with
              Containers := c.Spec.JobTemplate.Spec.Template.Spec.Containers.map
                (fun k => { k with Env := k.Env.map eraseEnvValue }) } } } } } }

/-! ## The driver (`src/main.go`, lines 126-172) -/

/-- Modelled from the spec: the error classes of sections 4.2 and 7. The
Kubernetes client library that produces them is not part of the repository. -/
inductive ErrorClass
  | InvalidIdentity
  | ConnectionError
  | AlreadyExists
  | Forbidden
  | TransientServerError
  deriving DecidableEq, Repr

/-- A Go `error` value as the driver sees it: the class the platform reports and
the text that `err.Error()` returns. -/
structure GoError where
  cls : ErrorClass
  message : String
  deriving DecidableEq, Repr

/-- The external collaborators that `main` calls, none of which is code of the
repository: `clientcmd.BuildConfigFromFlags`, `kubernetes.NewForConfig` and
`clientset.BatchV1().CronJobs(namespace).Create`. The type `σ` is the cluster's
desired-state store; `Get` reads the workload stored under a namespace and a
name and serves only to state properties (the driver never calls it). -/
structure Cluster (κ γ σ : Type) where
  BuildConfigFromFlags : String → String → Except GoError κ
  NewForConfig : κ → Except GoError γ
  Create : γ → String → batchv1.CronJob → metav1.CreateOptions → σ →
    Except GoError batchv1.CronJob × σ
  Get : σ → String → String → Option batchv1.CronJob

/-- How the process ends: `main` returns, or it stops in `panic(msg)`. -/
inductive Exit
  | returned
  | panicked (msg : String)
  deriving DecidableEq, Repr

/-- One run of `main`: how it ended, the lines it logged, and the store it left. -/
structure Run (σ : Type) where
  exit : Exit
  log : List String
  store : σ

/-- The function `main` of `src/main.go` from line 126 on. The two strings
`kubeconfig` and `ns` are the values of the Go variables `kubeconfig` and
`namespace` once `flag.Parse()` has returned (lines 137-155, flag handling, are
not modelled); `store` is the cluster's
store when the process starts. -/
def main {κ γ σ : Type} (K : Cluster κ γ σ) (kubeconfig ns : String) (store : σ) :
    Run σ :=
  let report : Report := mainReport
  let cronJob := newCronJobFromReport report
  match K.BuildConfigFromFlags "" kubeconfig with
  | Except.error err => { exit := Exit.panicked err.message, log := [], store := store }
  | Except.ok config =>
    match K.NewForConfig config with
    | Except.error err => { exit := Exit.panicked err.message, log := [], store := store }
    | Except.ok clientset =>
      let log := ["creating CronJob in namespace " ++ ns]
      match K.Create clientset ns cronJob {} store with
      | (Except.error err, store1) =>
        { exit := Exit.panicked err.message, log := log, store := store1 }
      | (Except.ok _, store1) =>
        { exit := Exit.returned, log := log, store := store1 }

/-- A create request as it reaches the platform. -/
structure CreateRequest where
  Namespace : String
  Body : batchv1.CronJob
  Options : metav1.CreateOptions
  deriving DecidableEq, Repr

/-- The same collaborators with a request journal next to the store: every
`Create` call is appended to the journal and otherwise behaves as in `K`. -/
def Cluster.recording {κ γ σ : Type} (K : Cluster κ γ σ) :
    Cluster κ γ (σ × List CreateRequest) :=
  { BuildConfigFromFlags := K.BuildConfigFromFlags
    NewForConfig := K.NewForConfig
    Create := fun clientset ns body opts st =>
      ((K.Create clientset ns body opts st.1).1,
        ((K.Create clientset ns body opts st.1).2,
          st.2 ++ [{ Namespace := ns, Body := body, Options := opts }]))
    Get := fun st => K.Get st.1 }

/-- Modelled from the spec: the platform's contract for create (section 4.2),
which the orchestration platform implements and the repository only consumes.
When a workload with the body's name is already stored in the namespace, the
call fails with an error of class `AlreadyExists` and the store is left as it
was. -/
def CreateNotUpsert {κ γ σ : Type} (K : Cluster κ γ σ) : Prop :=
  ∀ (clientset : γ) (ns : String) (body : batchv1.CronJob) (opts : metav1.CreateOptions)
    (store : σ), (K.Get store ns body.ObjectMeta.Name).isSome = true →
    ∃ err : GoError, err.cls = ErrorClass.AlreadyExists ∧
      K.Create clientset ns body opts store = (Except.error err, store)

/-- Modelled from the spec: an in-memory platform that follows section 4.2. The
store is a list of (namespace, workload) pairs; config loading and client
construction always succeed; create refuses a name that is already stored in
the namespace and otherwise appends the workload. -/
def memCluster : Cluster String Unit (List (String × batchv1.CronJob)) :=
  { BuildConfigFromFlags := fun _ kubeconfig => Except.ok kubeconfig
    NewForConfig := fun _ => Except.ok ()
    Create := fun _ ns body _ store =>
      if (store.find? (fun p => p.1 == ns && p.2.ObjectMeta.Name == body.ObjectMeta.Name)).isSome
      then (Except.error { cls := ErrorClass.AlreadyExists, message := "already exists" }, store)
      else (Except.ok body, store ++ [(ns, body)])
    Get := fun store ns name =>
      (store.find? (fun p => p.1 == ns && p.2.ObjectMeta.Name == name)).map (fun p => p.2) }

/-- A workload called `example` that differs from the compiled descriptor. -/
def otherExample : batchv1.CronJob :=
  { ObjectMeta := { Name := "example" }
    Spec := { Schedule := "0 0 * * *", ConcurrencyPolicy := "Allow" } }

/-! ## Theorems about the descriptor builder -/

/-- C1: for every Report the environment of the single container is exactly the
ordered five-entry sequence PGDATABASE, PGUSER, PGPASSWORD (secret-key
references to POSTGRES_DB, POSTGRES_USER and POSTGRES_PASSWORD of pg-config),
then PGHOST and PGPORT with the literal host and port of the Report; for the
Report built in `main` the two literals are `postgres` and `5432`. -/
theorem newCronJobFromReport_env :
    (∀ r : Report, (containersOf (newCronJobFromReport r)).map (fun c => c.Env) =
      [[secretEnv "PGDATABASE" "pg-config" "POSTGRES_DB",
        secretEnv "PGUSER" "pg-config" "POSTGRES_USER",
        secretEnv "PGPASSWORD" "pg-config" "POSTGRES_PASSWORD",
        literalEnv "PGHOST" r.Spec.DatabaseHostName,
        literalEnv "PGPORT" r.Spec.DatabasePort]]) ∧
    (containersOf (newCronJobFromReport mainReport)).map (fun c => c.Env) =
      [[secretEnv "PGDATABASE" "pg-config" "POSTGRES_DB",
        secretEnv "PGUSER" "pg-config" "POSTGRES_USER",
        secretEnv "PGPASSWORD" "pg-config" "POSTGRES_PASSWORD",
        literalEnv "PGHOST" "postgres",
        literalEnv "PGPORT" "5432"]] :=
  ⟨fun _ => rfl, rfl⟩

/-- C2: for a Report with non-empty name, host and port, the bindings PGDATABASE,
PGUSER and PGPASSWORD each have an empty literal value and a secret-key
reference; every binding has exactly one source, a non-empty literal or a
secret-key reference (and no reference of another kind); and the bindings with
a literal are exactly PGHOST and PGPORT. -/
theorem newCronJobFromReport_no_secret_literals (r : Report) (hr : r.nonEmpty) :
    (containersOf (newCronJobFromReport r)).length = 1 ∧
    ∀ c ∈ containersOf (newCronJobFromReport r),
      (∀ n ∈ ["PGDATABASE", "PGUSER", "PGPASSWORD"],
        ∃ e, lookupEnv n c.Env = some e ∧ e.Value = "" ∧ hasSecretRef e = true) ∧
      (∀ e ∈ c.Env,
        ((hasLiteral e = true ∧ hasSecretRef e = false) ∨
          (hasLiteral e = false ∧ hasSecretRef e = true)) ∧ hasOtherRef e = false) ∧
      (∀ e ∈ c.Env, hasLiteral e = true ↔ (e.Name = "PGHOST" ∨ e.Name = "PGPORT")) := by
  obtain ⟨_, hhost, hport⟩ := hr
  refine ⟨rfl, ?_⟩
  intro c hc
  simp only [containersOf, newCronJobFromReport, List.mem_singleton] at hc
  subst hc
  refine ⟨?_, ?_, ?_⟩
  · intro n hn
    simp only [List.mem_cons, List.mem_singleton, List.not_mem_nil, or_false] at hn
    rcases hn with rfl | rfl | rfl
    · exact ⟨secretEnv "PGDATABASE" "pg-config" "POSTGRES_DB", rfl, rfl, rfl⟩
    · exact ⟨secretEnv "PGUSER" "pg-config" "POSTGRES_USER", rfl, rfl, rfl⟩
    · exact ⟨secretEnv "PGPASSWORD" "pg-config" "POSTGRES_PASSWORD", rfl, rfl, rfl⟩
  · intro e he
    simp only [List.mem_cons, List.mem_singleton, List.not_mem_nil, or_false] at he
    rcases he with rfl | rfl | rfl | rfl | rfl
    · exact ⟨Or.inr ⟨by decide, rfl⟩, rfl⟩
    · exact ⟨Or.inr ⟨by decide, rfl⟩, rfl⟩
    · exact ⟨Or.inr ⟨by decide, rfl⟩, rfl⟩
    · exact ⟨Or.inl ⟨by simpa [hasLiteral] using hhost, rfl⟩, rfl⟩
    · exact ⟨Or.inl ⟨by simpa [hasLiteral] using hport, rfl⟩, rfl⟩
  · intro e he
    simp only [List.mem_cons, List.mem_singleton, List.not_mem_nil, or_false] at he
    rcases he with rfl | rfl | rfl | rfl | rfl
    · decide
    · decide
    · decide
    · simpa [hasLiteral] using hhost
    · simpa [hasLiteral] using hport

/-- Witness for C2 at the Report built in `main`. -/
theorem newCronJobFromReport_no_secret_literals_witness :
    mainReport.nonEmpty ∧
    (containersOf (newCronJobFromReport mainReport)).length = 1 ∧
    ∀ c ∈ containersOf (newCronJobFromReport mainReport),
      (∀ n ∈ ["PGDATABASE", "PGUSER", "PGPASSWORD"],
        ∃ e, lookupEnv n c.Env = some e ∧ e.Value = "" ∧ hasSecretRef e = true) ∧
      (∀ e ∈ c.Env,
        ((hasLiteral e = true ∧ hasSecretRef e = false) ∨
          (hasLiteral e = false ∧ hasSecretRef e = true)) ∧ hasOtherRef e = false) ∧
      (∀ e ∈ c.Env, hasLiteral e = true ↔ (e.Name = "PGHOST" ∨ e.Name = "PGPORT")) :=
  ⟨⟨by decide, by decide, by decide⟩,
    newCronJobFromReport_no_secret_literals mainReport ⟨by decide, by decide, by decide⟩⟩

/-- C3: for every Report the descriptor has concurrency policy Forbid, pod restart
policy Never, and a container list of length one. -/
theorem newCronJobFromReport_fixed_policies (r : Report) :
    (newCronJobFromReport r).Spec.ConcurrencyPolicy = "Forbid" ∧
    (newCronJobFromReport r).Spec.JobTemplate.Spec.Template.Spec.RestartPolicy = "Never" ∧
    (newCronJobFromReport r).Spec.JobTemplate.Spec.Template.Spec.Containers.length = 1 :=
  ⟨rfl, rfl, rfl⟩

/-- C4: for every Report the descriptor's `ObjectMeta.Name` is the Report's name,
character for character. -/
theorem newCronJobFromReport_name (r : Report) :
    (newCronJobFromReport r).ObjectMeta.Name = r.Name :=
  rfl

/-- C5, counterexample: the Report with the empty name (invalid under any length
bound, here 52) and the host and port of `main` is not refused; the call
returns a descriptor whose identity is the empty name. -/
theorem newCronJobFromReport_accepts_empty_name :
    validName 52 "" = false ∧
    callNewCronJobFromReport
        (some { Name := "", Spec := { DatabaseHostName := "postgres", DatabasePort := "5432" } }) =
      CallResult.returned
        (newCronJobFromReport
          { Name := "", Spec := { DatabaseHostName := "postgres", DatabasePort := "5432" } })
        { Name := "", Spec := { DatabaseHostName := "postgres", DatabasePort := "5432" } } ∧
    (newCronJobFromReport
        { Name := "", Spec := { DatabaseHostName := "postgres", DatabasePort := "5432" } }
      ).ObjectMeta.Name = "" := by
  decide

/-- C5, amended: for every Report whose name fails the naming grammar (empty, a
character other than a lowercase alphanumeric or hyphen, or longer than the
bound), the call returns a descriptor, and its identity is that name
unchanged; no failure is signalled. -/
theorem newCronJobFromReport_no_name_validation (bound : Nat) (r : Report)
    (hbad : validName bound r.Name = false) :
    callNewCronJobFromReport (some r) = CallResult.returned (newCronJobFromReport r) r ∧
    callNewCronJobFromReport (some r) ≠ CallResult.nilDereference ∧
    (newCronJobFromReport r).ObjectMeta.Name = r.Name := by
  have _ := hbad
  exact ⟨rfl, by simp [callNewCronJobFromReport], rfl⟩

/-- Witness for C5 (amended) at a name with capitals and an underscore. -/
theorem newCronJobFromReport_no_name_validation_witness :
    validName 52 "Monthly_Report" = false ∧
    callNewCronJobFromReport
        (some { Name := "Monthly_Report",
                Spec := { DatabaseHostName := "postgres", DatabasePort := "5432" } }) =
      CallResult.returned
        (newCronJobFromReport
          { Name := "Monthly_Report",
            Spec := { DatabaseHostName := "postgres", DatabasePort := "5432" } })
        { Name := "Monthly_Report",
          Spec := { DatabaseHostName := "postgres", DatabasePort := "5432" } } ∧
    (newCronJobFromReport
        { Name := "Monthly_Report",
          Spec := { DatabaseHostName := "postgres", DatabasePort := "5432" } }
      ).ObjectMeta.Name = "Monthly_Report" :=
  have h := newCronJobFromReport_no_name_validation 52
    { Name := "Monthly_Report",
      Spec := { DatabaseHostName := "postgres", DatabasePort := "5432" } } (by decide)
  ⟨by decide, h.1, h.2.2⟩

/-- C6: for every Report the schedule is the constant `*/5 * * * *`; split on
single spaces it gives exactly five fields, none empty, the first `*/5` and the
other four `*`. -/
theorem newCronJobFromReport_schedule (r : Report) :
    (newCronJobFromReport r).Spec.Schedule = "*/5 * * * *" ∧
    ((newCronJobFromReport r).Spec.Schedule.toList.splitOn ' ').map String.mk =
      ["*/5", "*", "*", "*", "*"] ∧
    ((newCronJobFromReport r).Spec.Schedule.toList.splitOn ' ').length = 5 ∧
    ∀ field ∈ (newCronJobFromReport r).Spec.Schedule.toList.splitOn ' ', field ≠ [] := by
  show "*/5 * * * *" = "*/5 * * * *" ∧
    ("*/5 * * * *".toList.splitOn ' ').map String.mk = ["*/5", "*", "*", "*", "*"] ∧
    ("*/5 * * * *".toList.splitOn ' ').length = 5 ∧
    ∀ field ∈ "*/5 * * * *".toList.splitOn ' ', field ≠ []
  decide

/-- C7: for every Report the only container's command is the three tokens `psql`,
`-c`, `SELECT current_timestamp;`; the first token is neither `sh` nor `bash`;
no argument vector is set; and the command is the same for any two Reports. -/
theorem newCronJobFromReport_command (r : Report) :
    (containersOf (newCronJobFromReport r)).map (fun c => c.Command) =
      [["psql", "-c", "SELECT current_timestamp;"]] ∧
    (∀ c ∈ containersOf (newCronJobFromReport r),
      c.Command.head? = some "psql" ∧ c.Command.head? ≠ some "sh" ∧
        c.Command.head? ≠ some "bash") ∧
    (containersOf (newCronJobFromReport r)).map (fun c => c.Args) = [[]] ∧
    ∀ r2 : Report, (containersOf (newCronJobFromReport r2)).map (fun c => c.Command) =
      (containersOf (newCronJobFromReport r)).map (fun c => c.Command) := by
  refine ⟨rfl, ?_, rfl, fun _ => rfl⟩
  intro c hc
  simp only [containersOf, newCronJobFromReport, List.mem_singleton] at hc
  subst hc
  refine ⟨rfl, ?_, ?_⟩
  · show some "psql" ≠ some "sh"
    decide
  · show some "psql" ≠ some "bash"
    decide

/-- C8: for every Report (any three strings) the call returns a descriptor and
does not fail, the Report the pointer refers to is the same after the call,
and a second call on it returns the same descriptor as the first. -/
theorem newCronJobFromReport_total_pure_deterministic (r : Report) :
    ∃ (c : batchv1.CronJob) (r1 : Report),
      callNewCronJobFromReport (some r) = CallResult.returned c r1 ∧
      r1 = r ∧
      callNewCronJobFromReport (some r1) = CallResult.returned c r1 ∧
      c = newCronJobFromReport r :=
  ⟨newCronJobFromReport r, r, rfl, rfl, rfl, rfl⟩

/-- C10: for any two Reports the descriptors agree once `ObjectMeta.Name` and the
literal values of PGHOST and PGPORT are blanked; kind, container name, image,
schedule, concurrency policy, command, secret references and restart policy
are constants; and the descriptor's own namespace is the empty string. -/
theorem newCronJobFromReport_frame (r1 r2 : Report) :
    eraseReportFields (newCronJobFromReport r1) = eraseReportFields (newCronJobFromReport r2) ∧
    (newCronJobFromReport r1).TypeMeta.Kind = "Cronjob" ∧
    (newCronJobFromReport r1).ObjectMeta.Namespace = "" ∧
    (newCronJobFromReport r1).Spec.Schedule = "*/5 * * * *" ∧
    (newCronJobFromReport r1).Spec.ConcurrencyPolicy = "Forbid" ∧
    (newCronJobFromReport r1).Spec.JobTemplate.Spec.Template.Spec.RestartPolicy = "Never" ∧
    (containersOf (newCronJobFromReport r1)).map (fun c => (c.Name, c.Image, c.Command)) =
      [("dayreport", "docker.io/postgres:14", ["psql", "-c", "SELECT current_timestamp;"])] ∧
    (containersOf (newCronJobFromReport r1)).map (fun c => c.Env.map (fun e => e.ValueFrom)) =
      [[(secretEnv "PGDATABASE" "pg-config" "POSTGRES_DB").ValueFrom,
        (secretEnv "PGUSER" "pg-config" "POSTGRES_USER").ValueFrom,
        (secretEnv "PGPASSWORD" "pg-config" "POSTGRES_PASSWORD").ValueFrom,
        none, none]] ∧
    newCronJobFromReport r1 =
      { eraseReportFields (newCronJobFromReport r1) with
        ObjectMeta := { Name := r1.Name }
        Spec.JobTemplate.Spec.Template.Spec.Containers :=
          (containersOf (eraseReportFields (newCronJobFromReport r1))).map (fun c =>
            { c with Env := c.Env.map (fun e =>
                if e.Name = "PGHOST" then { e with Value := r1.Spec.DatabaseHostName }
                else if e.Name = "PGPORT" then { e with Value := r1.Spec.DatabasePort }
                else e) }) } :=
  ⟨rfl, rfl, rfl, rfl, rfl, rfl, rfl, rfl, rfl⟩

/-! ## Theorems about the driver -/

/-- The in-memory platform follows the create contract. -/
theorem memCluster_createNotUpsert : CreateNotUpsert memCluster := by
  intro clientset ns body opts store h
  refine ⟨{ cls := ErrorClass.AlreadyExists, message := "already exists" }, rfl, ?_⟩
  have h1 : (store.find? (fun p => p.1 == ns && p.2.ObjectMeta.Name == body.ObjectMeta.Name)).isSome
      = true := by
    simpa [memCluster] using h
  simp only [memCluster]
  rw [if_pos h1]

/-- C9: once `main` has its connection handle, it issues exactly one create
request, in the chosen namespace and with the compiled descriptor as body, and
the store it leaves is the one that single call leaves; on a platform whose
create refuses an existing name, a workload called `example` already in that
namespace makes the call fail with AlreadyExists, `main` stops in a panic
carrying that error's message, and the store, and so the existing workload,
is as before. -/
theorem main_create_not_upsert {κ γ σ : Type} (K : Cluster κ γ σ) (kubeconfig ns : String)
    (config : κ) (clientset : γ) (store : σ)
    (hconfig : K.BuildConfigFromFlags "" kubeconfig = Except.ok config)
    (hclient : K.NewForConfig config = Except.ok clientset)
    (hK : CreateNotUpsert K) :
    (main K.recording kubeconfig ns (store, [])).store.2 =
      [{ Namespace := ns, Body := newCronJobFromReport mainReport, Options := {} }] ∧
    (main K.recording kubeconfig ns (store, [])).store.1 = (main K kubeconfig ns store).store ∧
    (main K kubeconfig ns store).store =
      (K.Create clientset ns (newCronJobFromReport mainReport) {} store).2 ∧
    ((K.Get store ns "example").isSome = true →
      ∃ err : GoError,
        K.Create clientset ns (newCronJobFromReport mainReport) {} store =
          (Except.error err, store) ∧
        err.cls = ErrorClass.AlreadyExists ∧
        (main K kubeconfig ns store).exit = Exit.panicked err.message ∧
        (main K kubeconfig ns store).store = store ∧
        K.Get (main K kubeconfig ns store).store ns "example" = K.Get store ns "example") := by
  have hrec1 : K.recording.BuildConfigFromFlags "" kubeconfig = Except.ok config := hconfig
  have hrec2 : K.recording.NewForConfig config = Except.ok clientset := hclient
  refine ⟨?_, ?_, ?_, ?_⟩
  · simp only [main, hrec1, hrec2]
    rcases hc : K.Create clientset ns (newCronJobFromReport mainReport) {} store with ⟨res, s1⟩
    cases res <;> simp [Cluster.recording, hc]
  · simp only [main, hrec1, hrec2, hconfig, hclient]
    rcases hc : K.Create clientset ns (newCronJobFromReport mainReport) {} store with ⟨res, s1⟩
    cases res <;> simp [Cluster.recording, hc]
  · simp only [main, hconfig, hclient]
    rcases hc : K.Create clientset ns (newCronJobFromReport mainReport) {} store with ⟨res, s1⟩
    cases res <;> simp
  · intro hget
    obtain ⟨err, hcls, hcreate⟩ := hK clientset ns (newCronJobFromReport mainReport) {} store hget
    refine ⟨err, hcreate, hcls, ?_, ?_, ?_⟩ <;> simp [main, hconfig, hclient, hcreate]

/-- Witness for C9 on the in-memory platform, with a differently configured
workload called `example` already stored in namespace `default`. -/
theorem main_create_not_upsert_witness :
    memCluster.BuildConfigFromFlags "" "/home/u/.kube/config" =
      Except.ok "/home/u/.kube/config" ∧
    memCluster.NewForConfig "/home/u/.kube/config" = Except.ok () ∧
    CreateNotUpsert memCluster ∧
    (memCluster.Get [("default", otherExample)] "default" "example").isSome = true ∧
    (main memCluster.recording "/home/u/.kube/config" "default"
        ([("default", otherExample)], [])).store.2 =
      [{ Namespace := "default", Body := newCronJobFromReport mainReport, Options := {} }] ∧
    (main memCluster "/home/u/.kube/config" "default" [("default", otherExample)]).exit =
      Exit.panicked "already exists" ∧
    (main memCluster "/home/u/.kube/config" "default" [("default", otherExample)]).store =
      [("default", otherExample)] ∧
    memCluster.Get
        (main memCluster "/home/u/.kube/config" "default" [("default", otherExample)]).store
        "default" "example" = some otherExample :=
  have h := main_create_not_upsert memCluster "/home/u/.kube/config" "default"
    "/home/u/.kube/config" () [("default", otherExample)] rfl rfl memCluster_createNotUpsert
  ⟨rfl, rfl, memCluster_createNotUpsert, by decide, h.1, by decide,
    (h.2.2.2 (by decide)).elim (fun _ he => he.2.2.2.1), by decide⟩

end CronJobExample
